import Mathlib

/-!
Verification of the intake-and-resilience subsystem of scanner-watcher2.

The Python sources are shallowly embedded:
* an exception is modelled as a pair of strings (its message, i.e. str(error),
  and its type name);
* back-off delays are modelled as rationals; wall-clock instants (used only
  by the circuit breaker, whose timeout and window are ints in the source)
  are modelled as integers, passed explicitly where the code calls
  datetime.now() / time.time();
* random.uniform(0, j) is modelled as an explicit jitter argument;
* fallible collaborator calls are modelled as Except-valued oracles, indexed
  by invocation number where a call site may invoke them more than once;
* characters are treated as ASCII (Python str.isalnum / str.lower agree with
  Char.isAlphanum / Char.toLower on ASCII).
-/

namespace ScannerWatcher

/-- A Python exception as seen by the error handler: `str(error)` and
`type(error).__name__`. -/
structure PyError where
  message : String
  typeName : String
deriving DecidableEq

/-- models.ErrorType. -/
inductive ErrorType where
  | TRANSIENT
  | PERMANENT
  | CRITICAL
  | FATAL
deriving DecidableEq

/-- Whether the character list `p` is a prefix of `s` (byte-wise). -/
def charsPrefix : List Char → List Char → Bool
  | [], _ => true
  | _ :: _, [] => false
  | a :: as, b :: bs => a == b && charsPrefix as bs

/-- Whether the character list `p` occurs contiguously inside `s`
(Python's `p in s` on strings). -/
def charsContains (p : List Char) : List Char → Bool
  | [] => p.isEmpty
  | c :: rest => charsPrefix p (c :: rest) || charsContains p rest

/-- Python's substring test `pat in s`. -/
def occursIn (pat s : String) : Bool :=
  charsContains pat.data s.data

/-- Python's `str.lower()` (ASCII). -/
def lowerStr (s : String) : String :=
  String.mk (s.data.map Char.toLower)

/-- error_handler.py line 94: transient error indicators. -/
def transient_indicators : List String :=
  ["timeout", "timed out", "connection", "network", "rate limit", "429",
   "503", "sharing violation", "file is being used", "cannot access",
   "temporarily unavailable"]

/-- error_handler.py line 113: fatal error indicators. -/
def fatal_indicators : List String :=
  ["out of memory", "memory error", "cannot write log",
   "permission denied on log"]

/-- error_handler.py line 125: critical error indicators. -/
def critical_indicators : List String :=
  ["directory not found", "disk full", "no space left", "api down",
   "service unavailable"]

/-- error_handler.py line 138: permanent error indicators. -/
def permanent_indicators : List String :=
  ["401", "403", "invalid api key", "unauthorized", "forbidden",
   "corrupted", "invalid format", "unsupported", "permission denied",
   "access denied"]

/-- The `for indicator in ...: if indicator in error_str or indicator in
error_type_name: return ...` loop of classify_error, for the categories that
test both the message and the type name. -/
def anyIndicatorBoth : List String → String → String → Bool
  | [], _, _ => false
  | i :: rest, es, tn =>
    if occursIn i es || occursIn i tn then true else anyIndicatorBoth rest es tn

/-- The `for indicator in ...: if indicator in error_str: return ...` loop of
classify_error, for the categories that test only the message. -/
def anyIndicatorMsg : List String → String → Bool
  | [], _ => false
  | i :: rest, es =>
    if occursIn i es then true else anyIndicatorMsg rest es

/-- error_handler.py lines 80-156: ErrorHandler.classify_error. -/
def classify_error (e : PyError) : ErrorType :=
  let error_str := lowerStr e.message
  let error_type_name := lowerStr e.typeName
  if anyIndicatorBoth transient_indicators error_str error_type_name then
    ErrorType.TRANSIENT
  else if anyIndicatorMsg fatal_indicators error_str then
    ErrorType.FATAL
  else if anyIndicatorMsg critical_indicators error_str then
    ErrorType.CRITICAL
  else if anyIndicatorBoth permanent_indicators error_str error_type_name then
    ErrorType.PERMANENT
  else
    ErrorType.PERMANENT

/-- Spec-side predicate: the failure matches a keyword set that is tested
against both the failure text and the failure kind. -/
def matchesSetBoth (kws : List String) (e : PyError) : Bool :=
  kws.any fun i =>
    occursIn i (lowerStr e.message) || occursIn i (lowerStr e.typeName)

/-- Spec-side predicate: the failure matches a keyword set that is tested
against the failure text only. -/
def matchesSetMsg (kws : List String) (e : PyError) : Bool :=
  kws.any fun i => occursIn i (lowerStr e.message)

theorem anyIndicatorBoth_eq_any (l : List String) (es tn : String) :
    anyIndicatorBoth l es tn = l.any (fun i => occursIn i es || occursIn i tn) := by
  induction l with
  | nil => rfl
  | cons i rest ih =>
    simp only [anyIndicatorBoth, List.any_cons]
    by_cases h : (occursIn i es || occursIn i tn) = true
    · simp [h]
    · simp [h, ih]

theorem anyIndicatorMsg_eq_any (l : List String) (es : String) :
    anyIndicatorMsg l es = l.any (fun i => occursIn i es) := by
  induction l with
  | nil => rfl
  | cons i rest ih =>
    simp only [anyIndicatorMsg, List.any_cons]
    by_cases h : occursIn i es = true
    · simp [h]
    · simp [h, ih]

/-- The retry / circuit-breaker configuration of ErrorHandler.__init__
(error_handler.py lines 40-78).  Delays are rationals (Python floats), the
circuit-breaker timeout and window are integer seconds as in the source;
`jitter_ms` is kept in milliseconds as in the source. -/
structure Handler where
  max_attempts : Nat
  initial_delay : ℚ
  exponential_base : ℚ
  max_delay : ℚ
  jitter_ms : ℚ
  circuit_breaker_threshold : Nat
  circuit_breaker_timeout : ℤ
  circuit_breaker_window : ℤ

/-- The ErrorHandler instance with the constructor's default arguments. -/
def defaultHandler : Handler :=
  { max_attempts := 3
    initial_delay := 1
    exponential_base := 2
    max_delay := 60
    jitter_ms := 500
    circuit_breaker_threshold := 5
    circuit_breaker_timeout := 300
    circuit_breaker_window := 60 }

/-- error_handler.py CircuitBreakerState. -/
inductive CBState where
  | CLOSED
  | OPEN
  | HALF_OPEN
deriving DecidableEq

/-- The mutable circuit-breaker fields of an ErrorHandler instance
(_circuit_state, _circuit_opened_at, _failure_times).  The deque holds the
failure instants in arrival order. -/
structure Breaker where
  circuit_state : CBState
  circuit_opened_at : Option ℤ
  failure_times : List ℤ
deriving DecidableEq

/-- The circuit-breaker fields as initialised by ErrorHandler.__init__. -/
def initBreaker : Breaker :=
  { circuit_state := CBState.CLOSED
    circuit_opened_at := none
    failure_times := [] }

/-- error_handler.py lines 158-173: ErrorHandler.should_retry. -/
def should_retry (h : Handler) (e : PyError) (attempt : Nat) : Bool :=
  if h.max_attempts ≤ attempt then false
  else classify_error e == ErrorType.TRANSIENT

/-- error_handler.py lines 175-195: ErrorHandler.calculate_backoff;
`jitter` stands for the value drawn by random.uniform(0, jitter_ms/1000). -/
def calculate_backoff (h : Handler) (attempt : Nat) (jitter : ℚ) : ℚ :=
  min (h.initial_delay * h.exponential_base ^ (attempt - 1)) h.max_delay + jitter

/-- The deque pruning shared by _record_failure and _get_failure_count:
pop from the left while the front timestamp is older than `now - window`. -/
def pruneTimes (window now : ℤ) (ts : List ℤ) : List ℤ :=
  ts.dropWhile fun t => t < now - window

/-- error_handler.py lines 197-205: ErrorHandler._record_failure. -/
def record_failure (h : Handler) (b : Breaker) (now : ℤ) : Breaker :=
  { b with failure_times :=
      pruneTimes h.circuit_breaker_window now (b.failure_times ++ [now]) }

/-- error_handler.py lines 207-216: ErrorHandler._get_failure_count (the
count it returns; the pruning side effect coincides with `pruneTimes`). -/
def get_failure_count (h : Handler) (b : Breaker) (now : ℤ) : Nat :=
  (pruneTimes h.circuit_breaker_window now b.failure_times).length

/-- error_handler.py lines 218-235: ErrorHandler._check_circuit_breaker.
Returns the updated breaker and whether CircuitBreakerOpenError is raised. -/
def check_circuit_breaker (h : Handler) (b : Breaker) (now : ℤ) :
    Breaker × Bool :=
  if b.circuit_state = CBState.OPEN then
    match b.circuit_opened_at with
    | some t =>
      if h.circuit_breaker_timeout ≤ now - t then
        ({ b with circuit_state := CBState.HALF_OPEN }, false)
      else (b, true)
    | none => (b, true)
  else (b, false)

/-- error_handler.py lines 237-261: ErrorHandler._update_circuit_breaker. -/
def update_circuit_breaker (h : Handler) (b : Breaker) (success : Bool)
    (now : ℤ) : Breaker :=
  if success then
    if b.circuit_state = CBState.HALF_OPEN then
      { circuit_state := CBState.CLOSED
        circuit_opened_at := none
        failure_times := [] }
    else b
  else
    let b1 := record_failure h b now
    if b1.circuit_state = CBState.HALF_OPEN then
      { b1 with circuit_state := CBState.OPEN, circuit_opened_at := some now }
    else if b1.circuit_state = CBState.CLOSED then
      if h.circuit_breaker_threshold ≤ get_failure_count h b1 now then
        { b1 with circuit_state := CBState.OPEN, circuit_opened_at := some now }
      else b1
    else b1

/-- Outcome of one execute_with_retry call: a result, a re-raised exception,
the CircuitBreakerOpenError short-circuit, or the unreachable RuntimeError of
line 327 (max_attempts = 0 with no recorded exception). -/
inductive ExecOutcome (α : Type) where
  | ok (a : α)
  | raised (e : PyError)
  | breakerOpen
  | noAttempts
deriving DecidableEq

/-- Observable result of execute_with_retry: the outcome, how many times the
wrapped operation was invoked, the sequence of back-off sleeps performed, and
the final circuit-breaker state. -/
structure ExecResult (α : Type) where
  outcome : ExecOutcome α
  invocations : Nat
  sleeps : List ℚ
  breaker : Breaker
deriving DecidableEq

/-- The `for attempt in range(1, max_attempts + 1)` loop of
execute_with_retry (error_handler.py lines 286-327).  `op n` is the outcome
of the n-th invocation of the operation, `jit n` the jitter drawn for the
back-off after attempt n, `times n` the clock reading during iteration n,
`fuel` the number of remaining iterations and `last` the `last_exception`
variable. -/
def execGo (h : Handler) (op : Nat → Except PyError α) (jit : Nat → ℚ)
    (times : Nat → ℤ) (use_cb : Bool) :
    Nat → Nat → Option PyError → Breaker → ExecResult α
  | 0, _, last, b =>
    match last with
    | some e => ⟨ExecOutcome.raised e, 0, [], b⟩
    | none => ⟨ExecOutcome.noAttempts, 0, [], b⟩
  | fuel + 1, attempt, _, b =>
    let now := times attempt
    let checked := if use_cb then check_circuit_breaker h b now else (b, false)
    if checked.2 then ⟨ExecOutcome.breakerOpen, 0, [], checked.1⟩
    else
      match op attempt with
      | Except.ok a =>
        let b2 := if use_cb then update_circuit_breaker h checked.1 true now
                  else checked.1
        ⟨ExecOutcome.ok a, 1, [], b2⟩
      | Except.error e =>
        let b2 := if use_cb then update_circuit_breaker h checked.1 false now
                  else checked.1
        if should_retry h e attempt then
          let sl := if attempt < h.max_attempts then
                      [calculate_backoff h attempt (jit attempt)]
                    else []
          let rest := execGo h op jit times use_cb fuel (attempt + 1) (some e) b2
          ⟨rest.outcome, rest.invocations + 1, sl ++ rest.sleeps, rest.breaker⟩
        else ⟨ExecOutcome.raised e, 1, [], b2⟩

/-- error_handler.py lines 265-327: ErrorHandler.execute_with_retry. -/
def execute_with_retry (h : Handler) (op : Nat → Except PyError α)
    (jit : Nat → ℚ) (times : Nat → ℤ) (use_cb : Bool) (b : Breaker) :
    ExecResult α :=
  execGo h op jit times use_cb h.max_attempts 1 none b

/-- models.Classification (the fields used by the pipeline).  Python's dict
preserves insertion order, so `identifiers` is an ordered association list
with distinct keys. -/
structure Classification where
  document_type : String
  identifiers : List (String × String)
deriving DecidableEq

/-- models.ProcessingResult.  Paths are strings; `processing_time_ms` is the
measured wall-clock duration, passed in explicitly. -/
structure ProcessingResult where
  success : Bool
  file_path : String
  document_type : Option String
  new_file_path : Option String
  processing_time_ms : Nat
  error : Option String
  correlation_id : String
deriving DecidableEq

/-- Pages are opaque to the orchestrator. -/
abbrev Img := Nat

/-- The collaborators of FileProcessor.process_file, as outcome oracles:
`validate_ok` is the validate_file verdict, `stat` the file_path.stat()
call, `extract` the n-th invocation of pdf_processor.extract_first_pages,
`optimize` pdf_processor.optimize_image, `classify` the n-th invocation of
the classification API call inside ai_service, `rename` the outcome of
file_manager.rename_file for a requested target name, and `verify` the
verify_file_accessible check. -/
structure PipelineEnv where
  validate_ok : Bool
  stat : Except PyError Nat
  extract : Nat → Except PyError (List Img)
  optimize : Img → Except PyError Img
  classify : Nat → Except PyError Classification
  rename : String → Except PyError String
  verify : String → Bool

/-- Python's `pathlib` stem/suffix split of a file name: the last dot, when
it is neither the first nor the last character, starts the suffix. -/
def pySplitExt (s : String) : String × String :=
  let cs := s.data
  match cs.reverse.findIdx? (fun c => c == '.') with
  | some j =>
    let i := cs.length - 1 - j
    if 0 < i ∧ i < cs.length - 1 then
      (String.mk (cs.take i), String.mk (cs.drop i))
    else (s, "")
  | none => (s, "")

/-- `Path(name).stem`. -/
def pyStem (s : String) : String := (pySplitExt s).1

/-- `Path(name).suffix`. -/
def pySuffix (s : String) : String := (pySplitExt s).2

/-- file_processor.py lines 281-304: the per-character sanitisation
`c if c.isalnum() or c in ("-", "_") else "_"` applied to a component. -/
def sanitize_value (s : String) : String :=
  String.mk (s.data.map fun c =>
    if c.isAlphanum || c == '-' || c == '_' then c else '_')

/-- file_processor.py lines 288-297: the fixed identifier priority list. -/
def ordered_keys : List String :=
  ["plaintiff_name", "plaintiff", "patient_name", "client_name",
   "case_number", "date_of_injury", "report_date", "evaluator_name"]

/-- Python dict lookup on the ordered association list (keys are unique). -/
def lookupId (ids : List (String × String)) (k : String) : Option String :=
  match ids.find? (fun p => p.1 == k) with
  | some p => some p.2
  | none => none

/-- file_processor.py lines 310-316: the first pass over `ordered_keys`,
collecting the sanitised non-empty values in priority order. -/
def orderedPass (ids : List (String × String)) : List String :=
  ordered_keys.filterMap fun k =>
    match lookupId ids k with
    | some v => if v ≠ "" then some (sanitize_value v) else none
    | none => none

/-- file_processor.py lines 310-316: the keys consumed by the first pass
(`processed_keys`). -/
def processedKeys (ids : List (String × String)) : List String :=
  ordered_keys.filter fun k =>
    match lookupId ids k with
    | some v => v ≠ ""
    | none => false

/-- file_processor.py lines 318-321: the second pass over the remaining
identifiers in insertion order. -/
def remainingPass (ids : List (String × String)) : List String :=
  ids.filterMap fun p =>
    if p.1 ∉ processedKeys ids ∧ p.2 ≠ "" then some (sanitize_value p.2)
    else none

/-- file_processor.py lines 306-321: `identifier_parts`. -/
def identifierParts (ids : List (String × String)) : List String :=
  orderedPass ids ++ remainingPass ids

/-- file_processor.py lines 323-334: `filename_parts`. -/
def filenameParts (date_str : String) (cls : Classification) : List String :=
  let safe_doc_type := sanitize_value cls.document_type
  match identifierParts cls.identifiers with
  | [] => [date_str, safe_doc_type]
  | p :: rest => [date_str, p, safe_doc_type] ++ rest

/-- file_processor.py line 336: `new_filename`. -/
def build_filename (date_str : String) (cls : Classification) : String :=
  String.intercalate "_" (filenameParts date_str cls) ++ ".pdf"

/-- file_processor.py lines 446-479: FileProcessor._rename_with_error_tag
(falls back to the original path when the rename raises). -/
def rename_with_error_tag (env : PipelineEnv) (file_path pre date_str : String) :
    String :=
  let new_filename := date_str ++ "_" ++ pre ++ "_" ++ pyStem file_path ++ ".pdf"
  match env.rename new_filename with
  | Except.ok p => p
  | Except.error _ => file_path

/-- The list comprehension of file_processor.py lines 201-203: optimize each
page, aborting on the first raised exception. -/
def optimizeAll (f : Img → Except PyError Img) : List Img → Except PyError (List Img)
  | [] => Except.ok []
  | x :: xs =>
    match f x with
    | Except.error e => Except.error e
    | Except.ok y =>
      match optimizeAll f xs with
      | Except.error e => Except.error e
      | Except.ok ys => Except.ok (y :: ys)

/-- file_processor.py lines 95-444: FileProcessor.process_file.  `fp` is the
input path, `corr` the generated correlation id, `date_str` the
strftime("%Y%m%d") value and `tms` the measured elapsed milliseconds.  The
un-modelled logger calls are total; `temp_files` stays empty in the source,
so the cleanup step is a no-op.  The only modelled statement inside the
outer `try` that can raise outside a stage-specific handler is the
file_path.stat() call, which is absorbed by the final catch-all. -/
def process_file (env : PipelineEnv) (fp corr date_str : String) (tms : Nat) :
    ProcessingResult :=
  if ¬env.validate_ok then
    { success := false, file_path := fp, document_type := none
      new_file_path := none, processing_time_ms := tms
      error := some "File validation failed", correlation_id := corr }
  else
    match env.stat with
    | Except.error e =>
      { success := false, file_path := fp, document_type := none
        new_file_path := none, processing_time_ms := tms
        error := some ("Unexpected error during processing: " ++ e.message)
        correlation_id := corr }
    | Except.ok _ =>
      match env.extract 1 with
      | Except.error e =>
        { success := false, file_path := fp, document_type := none
          new_file_path := some (rename_with_error_tag env fp "ERROR" date_str)
          processing_time_ms := tms
          error := some ("PDF extraction failed: " ++ e.message)
          correlation_id := corr }
      | Except.ok page_images =>
        match optimizeAll env.optimize page_images with
        | Except.error e =>
          { success := false, file_path := fp, document_type := none
            new_file_path := some (rename_with_error_tag env fp "ERROR" date_str)
            processing_time_ms := tms
            error := some ("Image optimization failed: " ++ e.message)
            correlation_id := corr }
        | Except.ok _ =>
          match env.classify 1 with
          | Except.error e =>
            { success := false, file_path := fp, document_type := none
              new_file_path := some (rename_with_error_tag env fp "UNKNOWN" date_str)
              processing_time_ms := tms
              error := some ("AI classification failed: " ++ e.message)
              correlation_id := corr }
          | Except.ok classification =>
            let document_type := classification.document_type
            let new_filename := build_filename date_str classification
            match env.rename new_filename with
            | Except.error e =>
              { success := false, file_path := fp
                document_type := some document_type, new_file_path := none
                processing_time_ms := tms
                error := some ("File rename failed: " ++ e.message)
                correlation_id := corr }
            | Except.ok new_file_path =>
              if ¬env.verify new_file_path then
                { success := false, file_path := fp
                  document_type := some document_type
                  new_file_path := some new_file_path
                  processing_time_ms := tms
                  error := some "Renamed file verification failed"
                  correlation_id := corr }
              else
                { success := true, file_path := fp
                  document_type := some document_type
                  new_file_path := some new_file_path
                  processing_time_ms := tms, error := none
                  correlation_id := corr }

/-- file_manager.py line 110: the conflict candidate `{stem}_{counter}{suffix}`. -/
def candName (stem sfx : String) (k : Nat) : String :=
  stem ++ "_" ++ toString k ++ sfx

/-- file_manager.py lines 109-114: the `while True` search of
_resolve_conflict, bounded by explicit fuel (the Python loop is unbounded
and terminates exactly when a free candidate exists). -/
def resolveLoop (ex : String → Bool) (stem sfx : String) :
    Nat → Nat → Option String
  | 0, _ => none
  | fuel + 1, counter =>
    if ex (candName stem sfx counter) then
      resolveLoop ex stem sfx fuel (counter + 1)
    else some (candName stem sfx counter)

/-- file_manager.py lines 92-114: FileManager._resolve_conflict.  `ex` is the
existence predicate of the destination directory. -/
def resolve_conflict (ex : String → Bool) (fuel : Nat) (filename : String) :
    Option String :=
  resolveLoop ex (pyStem filename) (pySuffix filename) fuel 1

/-- file_manager.py lines 40-90: the target-name selection of
FileManager.rename_file (the os.replace itself, wrapped in
execute_with_retry, is modelled as succeeding; `none` is the
FileNotFoundError on a missing source, or exhausted fuel). -/
def rename_file (ex : String → Bool) (fuel : Nat) (source target_name : String) :
    Option String :=
  if ¬ex source then none
  else if ex target_name then resolve_conflict ex fuel target_name
  else some target_name

/-- ai_service.py lines 239-263: the classification API call is executed
through ErrorHandler.execute_with_retry with use_circuit_breaker=True. -/
def classify_document (h : Handler) (apiSeq : Nat → Except PyError Classification)
    (jit : Nat → ℚ) (times : Nat → ℤ) (b : Breaker) : ExecResult Classification :=
  execute_with_retry h apiSeq jit times true b

/-- file_manager.py lines 68-80: the rename operation is executed through
ErrorHandler.execute_with_retry (no circuit breaker). -/
def rename_operation_retried (h : Handler) (opSeq : Nat → Except PyError String)
    (jit : Nat → ℚ) (times : Nat → ℤ) (b : Breaker) : ExecResult String :=
  execute_with_retry h opSeq jit times false b

/-- Claim C4: classify_error is a deterministic pure function of the failure
(it depends only on the failure's text and kind), evaluates the categories in
the fixed precedence order TRANSIENT, FATAL, CRITICAL, PERMANENT with the
first matching keyword set winning, and returns PERMANENT for every failure
that matches no keyword set. -/
theorem classify_error_precedence (e : PyError) :
    (∀ e2 : PyError, e.message = e2.message → e.typeName = e2.typeName →
      classify_error e = classify_error e2) ∧
    classify_error e =
      (if matchesSetBoth transient_indicators e then ErrorType.TRANSIENT
       else if matchesSetMsg fatal_indicators e then ErrorType.FATAL
       else if matchesSetMsg critical_indicators e then ErrorType.CRITICAL
       else if matchesSetBoth permanent_indicators e then ErrorType.PERMANENT
       else ErrorType.PERMANENT) ∧
    (matchesSetBoth transient_indicators e = false →
     matchesSetMsg fatal_indicators e = false →
     matchesSetMsg critical_indicators e = false →
     matchesSetBoth permanent_indicators e = false →
     classify_error e = ErrorType.PERMANENT) := by
  have hmain : classify_error e =
      (if matchesSetBoth transient_indicators e then ErrorType.TRANSIENT
       else if matchesSetMsg fatal_indicators e then ErrorType.FATAL
       else if matchesSetMsg critical_indicators e then ErrorType.CRITICAL
       else if matchesSetBoth permanent_indicators e then ErrorType.PERMANENT
       else ErrorType.PERMANENT) := by
    simp only [classify_error, matchesSetBoth, matchesSetMsg,
      anyIndicatorBoth_eq_any, anyIndicatorMsg_eq_any]
  refine ⟨?_, hmain, ?_⟩
  · intro e2 h1 h2
    have he : e = e2 := by
      cases e; cases e2; simp_all
    rw [he]
  · intro h1 h2 h3 h4
    rw [hmain, h1, h2, h3, h4]
    simp

/-- Concrete instantiation of classify_error_precedence: an unclassifiable
failure defaults to PERMANENT, and the classification is determined by the
failure's text and kind. -/
theorem classify_error_precedence_witness :
    classify_error ⟨"some odd failure", "WeirdThing"⟩ = ErrorType.PERMANENT ∧
    classify_error ⟨"some odd failure", "WeirdThing"⟩ =
      classify_error ⟨"some odd failure", "WeirdThing"⟩ := by
  have h := classify_error_precedence ⟨"some odd failure", "WeirdThing"⟩
  exact ⟨h.2.2 (by decide) (by decide) (by decide) (by decide),
    h.1 ⟨"some odd failure", "WeirdThing"⟩ rfl rfl⟩

/-- Helper: on an operation that fails on every invocation with errors that
all classify as TRANSIENT, the retry loop runs through its remaining
attempts, sleeps before every retry, and re-raises the error of the final
attempt. -/
theorem execGo_all_transient {α : Type} (h : Handler) (errs : Nat → PyError)
    (jit : Nat → ℚ) (times : Nat → ℤ) (b : Breaker) :
    ∀ fuel attempt last, 1 ≤ fuel → attempt + fuel = h.max_attempts + 1 →
    (∀ n, classify_error (errs n) = ErrorType.TRANSIENT) →
    execGo h (fun n => (Except.error (errs n) : Except PyError α)) jit times
        false fuel attempt last b =
      ⟨ExecOutcome.raised (errs h.max_attempts), fuel,
       (List.range (fuel - 1)).map
         (fun i => calculate_backoff h (attempt + i) (jit (attempt + i))), b⟩ := by
  intro fuel
  induction fuel with
  | zero => intro attempt last hf; omega
  | succ f ih =>
    intro attempt last _ hsum htr
    by_cases hcase : h.max_attempts ≤ attempt
    · have ha : attempt = h.max_attempts := by omega
      have hf0 : f = 0 := by omega
      subst hf0
      have hs : should_retry h (errs attempt) attempt = false := by
        simp [should_retry, hcase]
      simp [execGo, hs, ha]
    · have hlt : attempt < h.max_attempts := by omega
      have hs : should_retry h (errs attempt) attempt = true := by
        simp [should_retry, htr attempt]
        omega
      have hrec := ih (attempt + 1) (some (errs attempt)) (by omega) (by omega) htr
      simp only [execGo, Bool.false_eq_true, if_false, hs, if_true, hlt, if_pos,
        hrec]
      simp only [ExecResult.mk.injEq, Nat.add_sub_cancel]
      refine ⟨trivial, trivial, ?_, trivial⟩
      have hf1 : f = (f - 1) + 1 := by omega
      rw [hf1, List.range_succ_eq_map]
      simp only [List.map_cons, List.map_map, List.singleton_append,
        Nat.add_zero]
      refine congrArg (fun l => calculate_backoff h attempt (jit attempt) :: l) ?_
      rw [← hf1]
      refine List.map_congr_left ?_
      intro i _
      have he : attempt + Nat.succ i = attempt + 1 + i := by omega
      simp [Function.comp, he]

/-- Claim C1: a zero-argument operation that fails on every invocation is
invoked exactly max_attempts times when its errors classify as TRANSIENT,
and exactly once when its first error classifies as anything else; in both
cases the raised exception is re-raised unchanged to the caller. -/
theorem retry_budget_correct {α : Type} (h : Handler) (errs : Nat → PyError)
    (jit : Nat → ℚ) (times : Nat → ℤ) (b : Breaker) (hmax : 1 ≤ h.max_attempts) :
    ((∀ n, classify_error (errs n) = ErrorType.TRANSIENT) →
      (execute_with_retry h (fun n => (Except.error (errs n) : Except PyError α))
          jit times false b).outcome = ExecOutcome.raised (errs h.max_attempts) ∧
      (execute_with_retry h (fun n => (Except.error (errs n) : Except PyError α))
          jit times false b).invocations = h.max_attempts) ∧
    (classify_error (errs 1) ≠ ErrorType.TRANSIENT →
      (execute_with_retry h (fun n => (Except.error (errs n) : Except PyError α))
          jit times false b).outcome = ExecOutcome.raised (errs 1) ∧
      (execute_with_retry h (fun n => (Except.error (errs n) : Except PyError α))
          jit times false b).invocations = 1) := by
  constructor
  · intro htr
    have := execGo_all_transient (α := α) h errs jit times b h.max_attempts 1
      none hmax (by omega) htr
    rw [execute_with_retry, this]
    exact ⟨rfl, rfl⟩
  · intro hnt
    obtain ⟨m, hm⟩ : ∃ m, h.max_attempts = m + 1 := ⟨h.max_attempts - 1, by omega⟩
    have hs : should_retry h (errs 1) 1 = false := by
      simp [should_retry]
      intro _
      simpa using hnt
    rw [execute_with_retry, hm]
    simp [execGo, hs]

/-- Concrete instantiation of retry_budget_correct with the default handler:
a persistently timing-out operation is invoked 3 times, a persistently
corrupted-input operation once. -/
theorem retry_budget_correct_witness :
    (execute_with_retry defaultHandler
        (fun _ => (Except.error ⟨"timeout", "E"⟩ : Except PyError Unit))
        (fun _ => 0) (fun _ => 0) false initBreaker).invocations = 3 ∧
    (execute_with_retry defaultHandler
        (fun _ => (Except.error ⟨"corrupted", "E"⟩ : Except PyError Unit))
        (fun _ => 0) (fun _ => 0) false initBreaker).invocations = 1 := by
  constructor
  · exact ((retry_budget_correct defaultHandler (fun _ => ⟨"timeout", "E"⟩)
      (fun _ => 0) (fun _ => 0) initBreaker (by decide)).1
      (fun _ => by decide)).2
  · exact ((retry_budget_correct defaultHandler (fun _ => ⟨"corrupted", "E"⟩)
      (fun _ => 0) (fun _ => 0) initBreaker (by decide)).2
      (by decide)).2

/-- Claim C5: for every attempt n ≥ 1, calculate_backoff(n) equals
min(maxDelay, initialDelay * base^(n-1)) plus the drawn jitter; with jitter
zero the delay is nondecreasing in n and never exceeds maxDelay (for the
handler's configuration, whose base is at least 1 and whose initial delay is
nonnegative, as in the constructor defaults); and execute_with_retry sleeps
this delay before every retry but not after the final attempt (for an
always-transiently-failing operation, the sleeps are exactly the back-off
values of attempts 1 .. max_attempts - 1). -/
theorem backoff_schedule_correct (h : Handler) (hb : 1 ≤ h.exponential_base)
    (hd : 0 ≤ h.initial_delay) :
    (∀ (n : Nat) (j : ℚ), 1 ≤ n → calculate_backoff h n j =
      min h.max_delay (h.initial_delay * h.exponential_base ^ (n - 1)) + j) ∧
    (∀ n : Nat, 1 ≤ n →
      calculate_backoff h n 0 ≤ calculate_backoff h (n + 1) 0) ∧
    (∀ n : Nat, calculate_backoff h n 0 ≤ h.max_delay) ∧
    (∀ (α : Type) (errs : Nat → PyError) (jit : Nat → ℚ) (times : Nat → ℤ)
        (b : Breaker), 1 ≤ h.max_attempts →
      (∀ n, classify_error (errs n) = ErrorType.TRANSIENT) →
      (execute_with_retry h
          (fun n => (Except.error (errs n) : Except PyError α))
          jit times false b).sleeps =
        (List.range (h.max_attempts - 1)).map
          (fun i => calculate_backoff h (1 + i) (jit (1 + i)))) := by
  refine ⟨?_, ?_, ?_, ?_⟩
  · intro n j _
    rw [calculate_backoff, min_comm]
  · intro n _
    unfold calculate_backoff
    rw [add_zero, add_zero]
    refine min_le_min ?_ le_rfl
    refine mul_le_mul_of_nonneg_left ?_ hd
    refine pow_le_pow_right₀ hb ?_
    omega
  · intro n
    unfold calculate_backoff
    rw [add_zero]
    exact min_le_right _ _
  · intro α errs jit times b hmax htr
    have := execGo_all_transient (α := α) h errs jit times b h.max_attempts 1
      none hmax (by omega) htr
    rw [execute_with_retry, this]

/-- Concrete instantiation of backoff_schedule_correct with the default
handler: the back-off values of attempts 1..4 with zero jitter are
1, 2, 4, 8 seconds, each at most max_delay, and a 3-attempt transient run
sleeps exactly [1, 2]. -/
theorem backoff_schedule_correct_witness :
    calculate_backoff defaultHandler 1 0 =
      min defaultHandler.max_delay
        (defaultHandler.initial_delay * defaultHandler.exponential_base ^ 0) + 0 ∧
    calculate_backoff defaultHandler 1 0 ≤ calculate_backoff defaultHandler 2 0 ∧
    calculate_backoff defaultHandler 2 0 ≤ defaultHandler.max_delay ∧
    (execute_with_retry defaultHandler
        (fun _ => (Except.error ⟨"timeout", "E"⟩ : Except PyError Unit))
        (fun _ => 0) (fun _ => 0) false initBreaker).sleeps =
      [calculate_backoff defaultHandler 1 0, calculate_backoff defaultHandler 2 0] := by
  have h := backoff_schedule_correct defaultHandler (by decide) (by decide)
  have htrans : classify_error ⟨"timeout", "E"⟩ = ErrorType.TRANSIENT := by decide
  refine ⟨h.1 1 0 (by decide), h.2.1 1 (by decide), h.2.2.1 2, ?_⟩
  have h4 := h.2.2.2 Unit (fun _ => ⟨"timeout", "E"⟩) (fun _ => 0) (fun _ => 0)
    initBreaker (by decide) (fun _ => htrans)
  rw [h4]
  simp [defaultHandler, List.range_succ]

/-- Claim C2: the circuit breaker follows exactly the specified machine:
CLOSED opens when the failure count inside the sliding window reaches the
threshold; OPEN moves to HALF_OPEN once the timeout since opening elapsed;
HALF_OPEN closes on a success (clearing the failure window) and reopens on
any single failure; no other state transition exists.  While OPEN with the
timeout not elapsed, execute_with_retry with the breaker enabled fails
immediately with the distinct breaker-open outcome: the operation is never
invoked, nothing is classified, no retry and no sleep happens, and the
breaker is left unchanged. -/
theorem circuit_breaker_machine_correct (h : Handler) (b : Breaker) (now : ℤ) :
    (∀ t, b.circuit_state = CBState.OPEN → b.circuit_opened_at = some t →
      now - t < h.circuit_breaker_timeout →
      check_circuit_breaker h b now = (b, true)) ∧
    (∀ t, b.circuit_state = CBState.OPEN → b.circuit_opened_at = some t →
      h.circuit_breaker_timeout ≤ now - t →
      check_circuit_breaker h b now =
        ({ b with circuit_state := CBState.HALF_OPEN }, false)) ∧
    (b.circuit_state = CBState.HALF_OPEN →
      update_circuit_breaker h b true now =
        { circuit_state := CBState.CLOSED, circuit_opened_at := none
          failure_times := [] }) ∧
    (b.circuit_state = CBState.HALF_OPEN →
      (update_circuit_breaker h b false now).circuit_state = CBState.OPEN ∧
      (update_circuit_breaker h b false now).circuit_opened_at = some now) ∧
    (b.circuit_state = CBState.CLOSED →
      ((update_circuit_breaker h b false now).circuit_state = CBState.OPEN ↔
        h.circuit_breaker_threshold ≤
          get_failure_count h (record_failure h b now) now)) ∧
    (b.circuit_state ≠ CBState.HALF_OPEN →
      update_circuit_breaker h b true now = b) ∧
    ((check_circuit_breaker h b now).1.circuit_state = b.circuit_state ∨
      (b.circuit_state = CBState.OPEN ∧
       (check_circuit_breaker h b now).1.circuit_state = CBState.HALF_OPEN)) ∧
    (∀ success, (update_circuit_breaker h b success now).circuit_state =
        b.circuit_state ∨
      (b.circuit_state = CBState.HALF_OPEN ∧ success = true ∧
       (update_circuit_breaker h b success now).circuit_state = CBState.CLOSED) ∨
      (b.circuit_state = CBState.HALF_OPEN ∧ success = false ∧
       (update_circuit_breaker h b success now).circuit_state = CBState.OPEN) ∨
      (b.circuit_state = CBState.CLOSED ∧ success = false ∧
       (update_circuit_breaker h b success now).circuit_state = CBState.OPEN ∧
       h.circuit_breaker_threshold ≤
         get_failure_count h (record_failure h b now) now)) ∧
    (∀ (α : Type) (op : Nat → Except PyError α) (jit : Nat → ℚ)
        (times : Nat → ℤ) (t : ℤ),
      1 ≤ h.max_attempts → b.circuit_state = CBState.OPEN →
      b.circuit_opened_at = some t →
      times 1 - t < h.circuit_breaker_timeout →
      execute_with_retry h op jit times true b =
        ⟨ExecOutcome.breakerOpen, 0, [], b⟩) := by
  have hcheck_closed : ∀ t, b.circuit_state = CBState.OPEN →
      b.circuit_opened_at = some t → now - t < h.circuit_breaker_timeout →
      check_circuit_breaker h b now = (b, true) := by
    intro t hst hop hlt
    rw [check_circuit_breaker]
    simp [hst, hop, not_le.mpr hlt]
  refine ⟨hcheck_closed, ?_, ?_, ?_, ?_, ?_, ?_, ?_, ?_⟩
  · intro t hst hop hle
    rw [check_circuit_breaker]
    simp [hst, hop, hle]
  · intro hst
    rw [update_circuit_breaker]
    simp [hst]
  · intro hst
    rw [update_circuit_breaker]
    have h1 : (record_failure h b now).circuit_state = CBState.HALF_OPEN := hst
    simp [h1]
  · intro hst
    have h1 : (record_failure h b now).circuit_state = CBState.CLOSED := hst
    by_cases hth : h.circuit_breaker_threshold ≤
        get_failure_count h (record_failure h b now) now
    · rw [update_circuit_breaker]
      simp [h1, hth]
    · rw [update_circuit_breaker]
      simp [h1, hth]
  · intro hst
    rw [update_circuit_breaker]
    simp [hst]
  · rw [check_circuit_breaker]
    rcases hcs : b.circuit_state with _ | _ | _
    · simp [hcs]
    · rcases hop : b.circuit_opened_at with _ | t
      · simp [hcs, hop]
      · by_cases hel : h.circuit_breaker_timeout ≤ now - t
        · simp [hcs, hop, hel]
        · simp [hcs, hop, hel]
    · simp [hcs]
  · intro success
    rw [update_circuit_breaker]
    rcases success with _ | _
    · have h1 : (record_failure h b now).circuit_state = b.circuit_state := rfl
      rcases hcs : b.circuit_state with _ | _ | _
      · by_cases hth : h.circuit_breaker_threshold ≤
            get_failure_count h (record_failure h b now) now
        · right; right; right
          simp [h1, hcs, hth]
        · left
          simp [h1, hcs, hth]
      · left
        simp [h1, hcs]
      · right; right; left
        simp [h1, hcs]
    · rcases hcs : b.circuit_state with _ | _ | _
      · left; simp [hcs]
      · left; simp [hcs]
      · right; left; simp [hcs]
  · intro α op jit times t hmax hst hop hlt
    obtain ⟨m, hm⟩ : ∃ m, h.max_attempts = m + 1 := ⟨h.max_attempts - 1, by omega⟩
    have hck := hcheck_closed t hst hop
    rw [execute_with_retry, hm]
    rw [execGo]
    simp only [if_true]
    rw [check_circuit_breaker]
    simp [hst, hop, not_le.mpr hlt]

/-- Concrete instantiation of circuit_breaker_machine_correct with the
default handler: a breaker opened at time 0 rejects a call at time 10
without invoking the operation; a HALF_OPEN breaker closes (clearing the
window) on success and reopens on failure; a CLOSED breaker with 4 recent
failures opens on the 5th. -/
theorem circuit_breaker_machine_correct_witness :
    check_circuit_breaker defaultHandler ⟨CBState.OPEN, some 0, []⟩ 10 =
      (⟨CBState.OPEN, some 0, []⟩, true) ∧
    update_circuit_breaker defaultHandler ⟨CBState.HALF_OPEN, none, [5]⟩ true 10 =
      ⟨CBState.CLOSED, none, []⟩ ∧
    (update_circuit_breaker defaultHandler
        ⟨CBState.HALF_OPEN, none, [5]⟩ false 10).circuit_state = CBState.OPEN ∧
    (update_circuit_breaker defaultHandler
        ⟨CBState.CLOSED, none, [1, 2, 3, 4]⟩ false 5).circuit_state =
      CBState.OPEN ∧
    execute_with_retry defaultHandler
        (fun _ => (Except.ok 0 : Except PyError Nat)) (fun _ => 0)
        (fun _ => 10) true ⟨CBState.OPEN, some 0, []⟩ =
      ⟨ExecOutcome.breakerOpen, 0, [], ⟨CBState.OPEN, some 0, []⟩⟩ := by
  refine ⟨?_, ?_, ?_, ?_, ?_⟩
  · exact (circuit_breaker_machine_correct defaultHandler
      ⟨CBState.OPEN, some 0, []⟩ 10).1 0 rfl rfl (by decide)
  · exact (circuit_breaker_machine_correct defaultHandler
      ⟨CBState.HALF_OPEN, none, [5]⟩ 10).2.2.1 rfl
  · exact ((circuit_breaker_machine_correct defaultHandler
      ⟨CBState.HALF_OPEN, none, [5]⟩ 10).2.2.2.1 rfl).1
  · exact ((circuit_breaker_machine_correct defaultHandler
      ⟨CBState.CLOSED, none, [1, 2, 3, 4]⟩ 5).2.2.2.2.1 rfl).mpr (by decide)
  · exact (circuit_breaker_machine_correct defaultHandler
      ⟨CBState.OPEN, some 0, []⟩ 10).2.2.2.2.2.2.2.2 Nat
      (fun _ => Except.ok 0) (fun _ => 0) (fun _ => 10) 0 (by decide) rfl rfl
      (by decide)

/-- Claim C3: process_file routes failures by stage: a validation failure
yields a failed result carrying the validation error with no rename
attempted; an extraction or image-optimization failure yields a failed
result whose file has been renamed via the ERROR-tagged quarantine name; a
classification failure yields a failed result renamed via the UNKNOWN-tagged
quarantine name; a failure of the classification-driven rename yields a
failed result keeping the original path together with the classified
document type and no new path.  The final conjunct identifies the quarantine
request name as the date-plus-tag-plus-stem pattern. -/
theorem process_file_failure_routing (env : PipelineEnv)
    (fp corr date_str : String) (tms : Nat) :
    (env.validate_ok = false →
      process_file env fp corr date_str tms =
        ⟨false, fp, none, none, tms, some "File validation failed", corr⟩) ∧
    (∀ sz e, env.validate_ok = true → env.stat = Except.ok sz →
      env.extract 1 = Except.error e →
      process_file env fp corr date_str tms =
        ⟨false, fp, none,
         some (rename_with_error_tag env fp "ERROR" date_str), tms,
         some ("PDF extraction failed: " ++ e.message), corr⟩) ∧
    (∀ sz pages e, env.validate_ok = true → env.stat = Except.ok sz →
      env.extract 1 = Except.ok pages →
      optimizeAll env.optimize pages = Except.error e →
      process_file env fp corr date_str tms =
        ⟨false, fp, none,
         some (rename_with_error_tag env fp "ERROR" date_str), tms,
         some ("Image optimization failed: " ++ e.message), corr⟩) ∧
    (∀ sz pages opt e, env.validate_ok = true → env.stat = Except.ok sz →
      env.extract 1 = Except.ok pages →
      optimizeAll env.optimize pages = Except.ok opt →
      env.classify 1 = Except.error e →
      process_file env fp corr date_str tms =
        ⟨false, fp, none,
         some (rename_with_error_tag env fp "UNKNOWN" date_str), tms,
         some ("AI classification failed: " ++ e.message), corr⟩) ∧
    (∀ sz pages opt cls e, env.validate_ok = true → env.stat = Except.ok sz →
      env.extract 1 = Except.ok pages →
      optimizeAll env.optimize pages = Except.ok opt →
      env.classify 1 = Except.ok cls →
      env.rename (build_filename date_str cls) = Except.error e →
      process_file env fp corr date_str tms =
        ⟨false, fp, some cls.document_type, none, tms,
         some ("File rename failed: " ++ e.message), corr⟩) ∧
    (∀ pre np,
      env.rename (date_str ++ "_" ++ pre ++ "_" ++ pyStem fp ++ ".pdf") =
        Except.ok np →
      rename_with_error_tag env fp pre date_str = np) := by
  refine ⟨?_, ?_, ?_, ?_, ?_, ?_⟩
  · intro hv
    simp [process_file, hv]
  · intro sz e hv hstat hext
    simp [process_file, hv, hstat, hext]
  · intro sz pages e hv hstat hext hopt
    simp [process_file, hv, hstat, hext, hopt]
  · intro sz pages opt e hv hstat hext hopt hcls
    simp [process_file, hv, hstat, hext, hopt, hcls]
  · intro sz pages opt cls e hv hstat hext hopt hcls hren
    simp [process_file, hv, hstat, hext, hopt, hcls, hren]
  · intro pre np hren
    simp [rename_with_error_tag, hren]

/-- Concrete instantiation of process_file_failure_routing: a pipeline whose
extraction times out produces a failed result quarantined under the
ERROR-tagged name, and a validation failure produces a failed result with no
rename. -/
theorem process_file_failure_routing_witness :
    process_file
      { validate_ok := true, stat := Except.ok 10
        extract := fun _ => Except.error ⟨"timeout", "E"⟩
        optimize := fun i => Except.ok i
        classify := fun _ => Except.ok ⟨"Medical Report", []⟩
        rename := fun n => Except.ok n
        verify := fun _ => true }
      "scan1.pdf" "cid" "20250101" 7 =
      ⟨false, "scan1.pdf", none, some "20250101_ERROR_scan1.pdf", 7,
       some "PDF extraction failed: timeout", "cid"⟩ ∧
    process_file
      { validate_ok := false, stat := Except.ok 10
        extract := fun _ => Except.ok [1]
        optimize := fun i => Except.ok i
        classify := fun _ => Except.ok ⟨"Medical Report", []⟩
        rename := fun n => Except.ok n
        verify := fun _ => true }
      "scan2.pdf" "cid2" "20250101" 7 =
      ⟨false, "scan2.pdf", none, none, 7,
       some "File validation failed", "cid2"⟩ := by
  constructor
  · have h := (process_file_failure_routing
      { validate_ok := true, stat := Except.ok 10
        extract := fun _ => Except.error ⟨"timeout", "E"⟩
        optimize := fun i => Except.ok i
        classify := fun _ => Except.ok ⟨"Medical Report", []⟩
        rename := fun n => Except.ok n
        verify := fun _ => true }
      "scan1.pdf" "cid" "20250101" 7).2.1 10 ⟨"timeout", "E"⟩ rfl rfl rfl
    rw [h]
    simp [rename_with_error_tag]
    decide
  · exact (process_file_failure_routing
      { validate_ok := false, stat := Except.ok 10
        extract := fun _ => Except.ok [1]
        optimize := fun i => Except.ok i
        classify := fun _ => Except.ok ⟨"Medical Report", []⟩
        rename := fun n => Except.ok n
        verify := fun _ => true }
      "scan2.pdf" "cid2" "20250101" 7).1 rfl

/-- Claim C6: process_file is total at its public boundary: for every
environment it returns a ProcessingResult (the Lean function is total by
construction, mirroring the outer try/except of the source), the result
always carries the run's correlation id, every failed result carries an
error message, and the one modelled statement that can raise outside the
stage-specific handlers (the stat call) is converted by the catch-all into a
failed result with the unexpected-error message. -/
theorem process_file_total_boundary (env : PipelineEnv)
    (fp corr date_str : String) (tms : Nat) :
    (process_file env fp corr date_str tms).correlation_id = corr ∧
    ((process_file env fp corr date_str tms).success = false →
      (process_file env fp corr date_str tms).error ≠ none) ∧
    ((process_file env fp corr date_str tms).success = true →
      (process_file env fp corr date_str tms).error = none) ∧
    (∀ e, env.validate_ok = true → env.stat = Except.error e →
      process_file env fp corr date_str tms =
        ⟨false, fp, none, none, tms,
         some ("Unexpected error during processing: " ++ e.message), corr⟩) := by
  refine ⟨?_, ?_, ?_, ?_⟩
  · unfold process_file
    repeat' split
    all_goals dsimp only
    all_goals repeat' split
    all_goals rfl
  · unfold process_file
    repeat' split
    all_goals dsimp only
    all_goals repeat' split
    all_goals simp
  · unfold process_file
    repeat' split
    all_goals dsimp only
    all_goals repeat' split
    all_goals simp
  · intro e hv hstat
    simp [process_file, hv, hstat]

/-- Concrete instantiation of process_file_total_boundary: a run whose stat
call raises returns the catch-all failed result, correlation id intact. -/
theorem process_file_total_boundary_witness :
    process_file
      { validate_ok := true, stat := Except.error ⟨"gone", "OSError"⟩
        extract := fun _ => Except.ok [1]
        optimize := fun i => Except.ok i
        classify := fun _ => Except.ok ⟨"Medical Report", []⟩
        rename := fun n => Except.ok n
        verify := fun _ => true }
      "scan3.pdf" "cid3" "20250101" 4 =
      ⟨false, "scan3.pdf", none, none, 4,
       some "Unexpected error during processing: gone", "cid3"⟩ := by
  have h := (process_file_total_boundary
    { validate_ok := true, stat := Except.error ⟨"gone", "OSError"⟩
      extract := fun _ => Except.ok [1]
      optimize := fun i => Except.ok i
      classify := fun _ => Except.ok ⟨"Medical Report", []⟩
      rename := fun n => Except.ok n
      verify := fun _ => true }
    "scan3.pdf" "cid3" "20250101" 4).2.2.2 ⟨"gone", "OSError"⟩ rfl rfl
  rw [h]
  decide

/-- Claim C10 (implicit): when the ERROR- or UNKNOWN-tagged quarantine
rename itself raises, process_file swallows that exception and still returns
a failed result whose new path is the original input path, and whose error
field reports only the earlier extraction / classification failure. -/
theorem quarantine_rename_fallback (env : PipelineEnv)
    (fp corr date_str : String) (tms : Nat) :
    (∀ sz e re, env.validate_ok = true → env.stat = Except.ok sz →
      env.extract 1 = Except.error e →
      env.rename (date_str ++ "_" ++ "ERROR" ++ "_" ++ pyStem fp ++ ".pdf") =
        Except.error re →
      process_file env fp corr date_str tms =
        ⟨false, fp, none, some fp, tms,
         some ("PDF extraction failed: " ++ e.message), corr⟩) ∧
    (∀ sz pages opt e re, env.validate_ok = true → env.stat = Except.ok sz →
      env.extract 1 = Except.ok pages →
      optimizeAll env.optimize pages = Except.ok opt →
      env.classify 1 = Except.error e →
      env.rename (date_str ++ "_" ++ "UNKNOWN" ++ "_" ++ pyStem fp ++ ".pdf") =
        Except.error re →
      process_file env fp corr date_str tms =
        ⟨false, fp, none, some fp, tms,
         some ("AI classification failed: " ++ e.message), corr⟩) := by
  constructor
  · intro sz e re hv hstat hext hren
    simp [process_file, hv, hstat, hext, rename_with_error_tag, hren]
  · intro sz pages opt e re hv hstat hext hopt hcls hren
    simp [process_file, hv, hstat, hext, hopt, hcls,
      rename_with_error_tag, hren]

/-- Concrete instantiation of quarantine_rename_fallback: with a locked
filesystem the extraction failure is reported and the file keeps its
original path. -/
theorem quarantine_rename_fallback_witness :
    process_file
      { validate_ok := true, stat := Except.ok 10
        extract := fun _ => Except.error ⟨"corrupted", "E"⟩
        optimize := fun i => Except.ok i
        classify := fun _ => Except.ok ⟨"Medical Report", []⟩
        rename := fun _ => Except.error ⟨"sharing violation", "OSError"⟩
        verify := fun _ => true }
      "scan4.pdf" "cid4" "20250101" 3 =
      ⟨false, "scan4.pdf", none, some "scan4.pdf", 3,
       some "PDF extraction failed: corrupted", "cid4"⟩ := by
  exact (quarantine_rename_fallback
    { validate_ok := true, stat := Except.ok 10
      extract := fun _ => Except.error ⟨"corrupted", "E"⟩
      optimize := fun i => Except.ok i
      classify := fun _ => Except.ok ⟨"Medical Report", []⟩
      rename := fun _ => Except.error ⟨"sharing violation", "OSError"⟩
      verify := fun _ => true }
    "scan4.pdf" "cid4" "20250101" 3).1 10 ⟨"corrupted", "E"⟩
    ⟨"sharing violation", "OSError"⟩ rfl rfl rfl rfl

/-- Helper: the _resolve_conflict loop returns the candidate of the smallest
free counter value, as soon as it reaches it. -/
theorem resolveLoop_finds (ex : String → Bool) (stem sfx : String) :
    ∀ fuel c k, c ≤ k → ex (candName stem sfx k) = false →
    (∀ j, c ≤ j → j < k → ex (candName stem sfx j) = true) →
    k < c + fuel →
    resolveLoop ex stem sfx fuel c = some (candName stem sfx k) := by
  intro fuel
  induction fuel with
  | zero => intro c k hck _ _ hlt; omega
  | succ f ih =>
    intro c k hck hfree hbusy hlt
    by_cases hc : ex (candName stem sfx c) = true
    · have hne : c ≠ k := by
        intro he
        rw [he] at hc
        rw [hfree] at hc
        exact Bool.false_ne_true hc
      rw [resolveLoop, if_pos hc]
      exact ih (c + 1) k (by omega) hfree
        (fun j hj1 hj2 => hbusy j (by omega) hj2) (by omega)
    · have hck2 : c = k := by
        by_contra hne
        exact hc (hbusy c le_rfl (by omega))
      rw [resolveLoop, if_neg hc, hck2]

/-- Claim C7: when the requested target name already exists, rename_file
moves the source to stem_k(.ext) where k is the smallest positive integer
whose candidate does not exist, the search stopping at that first free
candidate (any fuel bound of at least k iterations suffices); when the
requested target does not exist the name is used unchanged. -/
theorem rename_conflict_resolution (ex : String → Bool) (fuel : Nat)
    (source target : String) (hsrc : ex source = true) :
    (ex target = false → rename_file ex fuel source target = some target) ∧
    (∀ k, ex target = true → 1 ≤ k →
      ex (candName (pyStem target) (pySuffix target) k) = false →
      (∀ j, 1 ≤ j → j < k →
        ex (candName (pyStem target) (pySuffix target) j) = true) →
      k ≤ fuel →
      rename_file ex fuel source target =
        some (candName (pyStem target) (pySuffix target) k)) := by
  constructor
  · intro htgt
    rw [rename_file]
    simp [hsrc, htgt]
  · intro k htgt hk1 hfree hbusy hkf
    rw [rename_file]
    simp only [hsrc, Bool.not_true, Bool.false_eq_true, not_false_iff,
      not_true, if_false, htgt, if_true, if_neg, if_pos]
    rw [resolve_conflict]
    exact resolveLoop_finds ex (pyStem target) (pySuffix target) fuel 1 k hk1
      hfree hbusy (by omega)

/-- Concrete instantiation of rename_conflict_resolution: with t.pdf and
t_1.pdf already present, the source is moved to t_2.pdf; with a free target
the requested name is used unchanged. -/
theorem rename_conflict_resolution_witness :
    rename_file (fun s => s == "src.pdf" || s == "t.pdf" || s == "t_1.pdf")
      10 "src.pdf" "t.pdf" = some "t_2.pdf" ∧
    rename_file (fun s => s == "src.pdf") 10 "src.pdf" "t.pdf" =
      some "t.pdf" := by
  constructor
  · have h := (rename_conflict_resolution
      (fun s => s == "src.pdf" || s == "t.pdf" || s == "t_1.pdf")
      10 "src.pdf" "t.pdf" (by decide)).2 2 (by decide) (by decide)
      (by decide)
      (by
        intro j h1 h2
        have hj : j = 1 := by omega
        subst hj
        decide)
      (by decide)
    rw [h]
    decide
  · exact (rename_conflict_resolution (fun s => s == "src.pdf")
      10 "src.pdf" "t.pdf" (by decide)).1 (by decide)

/-- Modelled from the spec sentence "all non-alphanumeric characters in each
component are replaced with an underscore": the sanitiser the claim
describes, to be compared with the source's sanitize_value. -/
def claimSanitize (s : String) : String :=
  String.mk (s.data.map fun c => if c.isAlphanum then c else '_')

/-- The raw (unsanitised) non-empty values of the priority-list keys, in
priority order. -/
def priorityValues (ids : List (String × String)) : List String :=
  ordered_keys.filterMap fun k =>
    match lookupId ids k with
    | some v => if v ≠ "" then some v else none
    | none => none

/-- The first present non-empty value among the priority-list keys. -/
def firstPriorityValue (ids : List (String × String)) : Option String :=
  (priorityValues ids).head?

/-- Helper: the sanitiser never empties a non-empty component. -/
theorem sanitize_value_ne_empty (s : String) (hs : s ≠ "") :
    sanitize_value s ≠ "" := by
  obtain ⟨cs⟩ := s
  intro hc
  apply hs
  have hd := congrArg String.data hc
  simp only [sanitize_value] at hd
  have hnil : cs.map (fun c =>
      if c.isAlphanum || c == '-' || c == '_' then c else '_') = [] := hd
  rw [List.map_eq_nil_iff] at hnil
  rw [hnil]

/-- Helper: the first pass over the priority keys yields exactly the
sanitised priority values. -/
theorem orderedPass_eq_map (ids : List (String × String)) :
    orderedPass ids = (priorityValues ids).map sanitize_value := by
  rw [orderedPass, priorityValues, List.map_filterMap]
  refine congrArg (fun f => List.filterMap f ordered_keys) ?_
  funext k
  cases lookupId ids k with
  | none => rfl
  | some v =>
    by_cases hv : v ≠ ""
    · simp [hv]
    · simp [hv]

/-- Helper: every entry of identifier_parts is a sanitised non-empty value. -/
theorem identifierParts_ne_empty (ids : List (String × String)) :
    ∀ x ∈ identifierParts ids, x ≠ "" := by
  intro x hx
  rw [identifierParts, List.mem_append] at hx
  rcases hx with hx | hx
  · rw [orderedPass] at hx
    obtain ⟨k, _, hk⟩ := List.mem_filterMap.mp hx
    cases hl : lookupId ids k with
    | none => simp [hl] at hk
    | some v =>
      simp only [hl] at hk
      by_cases hv : v ≠ ""
      · rw [if_pos hv] at hk
        obtain rfl := Option.some.inj hk
        exact sanitize_value_ne_empty v hv
      · rw [if_neg hv] at hk
        exact absurd hk (by simp)
  · rw [remainingPass] at hx
    obtain ⟨p, _, hp⟩ := List.mem_filterMap.mp hx
    by_cases hc : p.1 ∉ processedKeys ids ∧ p.2 ≠ ""
    · rw [if_pos hc] at hp
      obtain rfl := Option.some.inj hp
      exact sanitize_value_ne_empty p.2 hc.2
    · rw [if_neg hc] at hp
      exact absurd hp (by simp)

/-- Counterexample to claim C8 as stated: the source sanitiser keeps
hyphens, which are not alphanumeric, rather than replacing every
non-alphanumeric character with an underscore; and when no priority-list key
is present, the identifier placed before the document type comes from a key
outside the fixed priority list. -/
theorem filename_sanitization_counterexample :
    ('-' ∈ (sanitize_value "Med-Report").data ∧ ('-'.isAlphanum = false) ∧
      '-' ≠ '_') ∧
    sanitize_value "Med-Report" ≠ claimSanitize "Med-Report" ∧
    (build_filename "20250101" ⟨"Rpt", [("foo", "My Val")]⟩ =
      "20250101_My_Val_Rpt.pdf" ∧
     List.contains ordered_keys "foo" = false ∧
     firstPriorityValue [("foo", "My Val")] = none) := by
  refine ⟨⟨?_, ?_, ?_⟩, ?_, ?_, ?_, ?_⟩ <;> decide

/-- Claim C8 as amended by the counterexample: every non-alphanumeric
character other than hyphen and underscore in each component is replaced
with an underscore (every character of a sanitised component is alphanumeric
or a hyphen or an underscore); empty identifier values are omitted so no
empty component (and hence no doubled separator) appears; and the identifier
placed before the document type is the first present non-empty value from
the fixed priority list when one exists, otherwise the first remaining
non-empty identifier in insertion order (or the slot is dropped entirely
when there are no identifiers). -/
theorem filename_construction_amended (date_str : String)
    (cls : Classification) :
    (∀ s : String, ∀ c ∈ (sanitize_value s).data,
      (c.isAlphanum || c == '-' || c == '_') = true) ∧
    (date_str ≠ "" → cls.document_type ≠ "" →
      "" ∉ filenameParts date_str cls) ∧
    (∀ v, firstPriorityValue cls.identifiers = some v →
      ∃ rest, filenameParts date_str cls =
        date_str :: sanitize_value v ::
          sanitize_value cls.document_type :: rest) ∧
    (∀ w, firstPriorityValue cls.identifiers = none →
      (remainingPass cls.identifiers).head? = some w →
      ∃ rest, filenameParts date_str cls =
        date_str :: w :: sanitize_value cls.document_type :: rest) ∧
    (identifierParts cls.identifiers = [] →
      filenameParts date_str cls =
        [date_str, sanitize_value cls.document_type]) ∧
    build_filename date_str cls =
      String.intercalate "_" (filenameParts date_str cls) ++ ".pdf" := by
  refine ⟨?_, ?_, ?_, ?_, ?_, rfl⟩
  · intro s c hc
    simp only [sanitize_value] at hc
    obtain ⟨a, _, ha⟩ := List.mem_map.mp hc
    by_cases hcond : (a.isAlphanum || a == '-' || a == '_') = true
    · rw [if_pos hcond] at ha
      rw [← ha]
      exact hcond
    · rw [if_neg hcond] at ha
      rw [← ha]
      decide
  · intro hd hdoc hmem
    rw [filenameParts] at hmem
    cases hip : identifierParts cls.identifiers with
    | nil =>
      rw [hip] at hmem
      rcases List.mem_pair.mp hmem with he | he
      · exact hd he.symm
      · exact sanitize_value_ne_empty cls.document_type hdoc he.symm
    | cons p rest =>
      rw [hip] at hmem
      simp only [List.cons_append, List.mem_cons] at hmem
      rcases hmem with he | he | he | he
      · exact hd he.symm
      · refine identifierParts_ne_empty cls.identifiers p ?_ he.symm
        rw [hip]; exact List.mem_cons_self p rest
      · exact sanitize_value_ne_empty cls.document_type hdoc he.symm
      · refine identifierParts_ne_empty cls.identifiers "" ?_ rfl
        rw [hip]
        exact List.mem_cons_of_mem p he
  · intro v hv
    rw [firstPriorityValue] at hv
    cases hpv : priorityValues cls.identifiers with
    | nil => rw [hpv] at hv; exact absurd hv (by simp)
    | cons a t =>
      rw [hpv] at hv
      have hav : a = v := by simpa using hv
      refine ⟨(t.map sanitize_value) ++ remainingPass cls.identifiers, ?_⟩
      rw [filenameParts]
      have hip : identifierParts cls.identifiers =
          sanitize_value v :: (t.map sanitize_value ++
            remainingPass cls.identifiers) := by
        rw [identifierParts, orderedPass_eq_map, hpv, List.map_cons,
          List.cons_append, hav]
      rw [hip]
      rfl
  · intro w hnone hw
    rw [firstPriorityValue] at hnone
    have hpv : priorityValues cls.identifiers = [] := by
      cases hpv : priorityValues cls.identifiers with
      | nil => rfl
      | cons a t => rw [hpv] at hnone; exact absurd hnone (by simp)
    cases hrp : remainingPass cls.identifiers with
    | nil => rw [hrp] at hw; exact absurd hw (by simp)
    | cons a t =>
      rw [hrp] at hw
      have haw : a = w := by simpa using hw
      refine ⟨t, ?_⟩
      rw [filenameParts]
      have hip : identifierParts cls.identifiers = w :: t := by
        rw [identifierParts, orderedPass_eq_map, hpv, List.map_nil,
          List.nil_append, hrp, haw]
      rw [hip]
      rfl
  · intro hip
    rw [filenameParts, hip]

/-- Concrete instantiation of filename_construction_amended: with a
plaintiff name and a case number present, the plaintiff name (sanitised) is
placed right before the sanitised document type, and no component of the
filename is empty. -/
theorem filename_construction_amended_witness :
    (∃ rest, filenameParts "20250101"
        ⟨"Medical Report",
         [("case_number", "C-1"), ("plaintiff_name", "John Doe")]⟩ =
      "20250101" :: sanitize_value "John Doe" ::
        sanitize_value "Medical Report" :: rest) ∧
    "" ∉ filenameParts "20250101"
        ⟨"Medical Report",
         [("case_number", "C-1"), ("plaintiff_name", "John Doe")]⟩ := by
  have h := filename_construction_amended "20250101"
    ⟨"Medical Report", [("case_number", "C-1"), ("plaintiff_name", "John Doe")]⟩
  exact ⟨h.2.2.1 "John Doe" (by decide), h.2.1 (by decide) (by decide)⟩

/-- Helper: pruning the failure deque never lengthens it. -/
theorem pruneTimes_length_le (w now : ℤ) (ts : List ℤ) :
    (pruneTimes w now ts).length ≤ ts.length :=
  List.Sublist.length_le (List.dropWhile_sublist _)

/-- Helper: recording a failure grows the deque by at most one entry. -/
theorem record_failure_length (h : Handler) (b : Breaker) (now : ℤ) :
    (record_failure h b now).failure_times.length ≤
      b.failure_times.length + 1 := by
  rw [record_failure]
  calc (pruneTimes h.circuit_breaker_window now
          (b.failure_times ++ [now])).length
      ≤ (b.failure_times ++ [now]).length :=
        pruneTimes_length_le _ _ _
    _ = b.failure_times.length + 1 := by simp

/-- Helper: a CLOSED breaker whose deque is well below the threshold stays
CLOSED across a recorded failure. -/
theorem update_closed_keeps (h : Handler) (b : Breaker) (now : ℤ)
    (hst : b.circuit_state = CBState.CLOSED)
    (hlow : b.failure_times.length + 1 < h.circuit_breaker_threshold) :
    (update_circuit_breaker h b false now).circuit_state = CBState.CLOSED ∧
    (update_circuit_breaker h b false now).failure_times.length ≤
      b.failure_times.length + 1 := by
  have hcnt : get_failure_count h (record_failure h b now) now <
      h.circuit_breaker_threshold := by
    have h1 : get_failure_count h (record_failure h b now) now ≤
        (record_failure h b now).failure_times.length :=
      pruneTimes_length_le _ _ _
    have h2 := record_failure_length h b now
    omega
  have h1 : (record_failure h b now).circuit_state = CBState.CLOSED := hst
  rw [update_circuit_breaker]
  simp only [Bool.false_eq_true, if_false, h1]
  have hth : ¬h.circuit_breaker_threshold ≤
      get_failure_count h (record_failure h b now) now := by omega
  simp [hth, h1, record_failure_length h b now]

/-- Helper: checking a CLOSED breaker passes and leaves it unchanged. -/
theorem check_closed (h : Handler) (b : Breaker) (now : ℤ)
    (hst : b.circuit_state = CBState.CLOSED) :
    check_circuit_breaker h b now = (b, false) := by
  rw [check_circuit_breaker]
  simp [hst]

/-- Helper: an operation whose first k-1 invocations fail with
TRANSIENT-classified errors and whose k-th invocation succeeds is driven to
success by the retry loop in exactly k invocations (with the circuit
breaker, provided it starts CLOSED with room below the threshold). -/
theorem execGo_transient_prefix {α : Type} (h : Handler)
    (seq : Nat → Except PyError α) (jit : Nat → ℚ) (times : Nat → ℤ)
    (use_cb : Bool) (k : Nat) (c : α) :
    ∀ fuel attempt b last,
      attempt + fuel = h.max_attempts + 1 → 1 ≤ attempt → attempt ≤ k →
      k ≤ h.max_attempts →
      (∀ n, attempt ≤ n → n < k →
        ∃ e, seq n = Except.error e ∧
          classify_error e = ErrorType.TRANSIENT) →
      seq k = Except.ok c →
      (use_cb = true → b.circuit_state = CBState.CLOSED) →
      (use_cb = true →
        b.failure_times.length + (k - attempt) <
          h.circuit_breaker_threshold) →
      (execGo h seq jit times use_cb fuel attempt last b).outcome =
        ExecOutcome.ok c ∧
      (execGo h seq jit times use_cb fuel attempt last b).invocations =
        k - attempt + 1 := by
  intro fuel
  induction fuel with
  | zero => intro attempt b last hsum h1 hak hkm _ _ _ _; omega
  | succ f ih =>
    intro attempt b last hsum h1 hak hkm hfail hok hcb1 hcb2
    have hcheck : (if use_cb then
        check_circuit_breaker h b (times attempt) else (b, false)) =
        (b, false) := by
      cases use_cb with
      | false => rfl
      | true => exact check_closed h b (times attempt) (hcb1 rfl)
    by_cases heq : attempt = k
    · subst heq
      simp [execGo, hcheck, hok]
    · have hlt : attempt < k := by omega
      obtain ⟨e, hse, htr⟩ := hfail attempt le_rfl hlt
      have hs : should_retry h e attempt = true := by
        simp [should_retry, htr]
        omega
      have hb2 : ∀ hcb : use_cb = true,
          (update_circuit_breaker h b false (times attempt)).circuit_state =
            CBState.CLOSED ∧
          (update_circuit_breaker h b false (times attempt)).failure_times.length ≤
            b.failure_times.length + 1 := by
        intro hcb
        refine update_closed_keeps h b (times attempt) (hcb1 hcb) ?_
        have := hcb2 hcb
        omega
      have hrec := ih (attempt + 1)
        (if use_cb then update_circuit_breaker h b false (times attempt) else b)
        (some e) (by omega) (by omega) (by omega) hkm
        (fun n hn1 hn2 => hfail n (by omega) hn2) hok
        (by
          intro hcb
          rw [hcb]
          simp only [if_true]
          exact (hb2 hcb).1)
        (by
          intro hcb
          rw [hcb]
          simp only [if_true]
          have := (hb2 hcb).2
          have := hcb2 hcb
          omega)
      simp only [execGo, hcheck, Bool.false_eq_true, if_false, hse, hs,
        if_true]
      cases use_cb with
      | false =>
        simp only [Bool.false_eq_true, if_false, if_true] at hrec ⊢
        refine ⟨hrec.1, ?_⟩
        rw [hrec.2]
        omega
      | true =>
        simp only [Bool.false_eq_true, if_false, if_true] at hrec ⊢
        refine ⟨hrec.1, ?_⟩
        rw [hrec.2]
        omega

/-- Counterexample to claim C9 as stated: page extraction is invoked
directly by process_file, not through execute_with_retry.  With an
extraction that fails once with a TRANSIENT timeout and would succeed on the
second invocation, and attempts remaining below the maximum, the stage fails
on the first error and the file is quarantined — whereas the same operation
run through the resilient executor succeeds in 2 invocations. -/
theorem extraction_not_retried_counterexample :
    classify_error ⟨"timeout", "E"⟩ = ErrorType.TRANSIENT ∧
    1 < defaultHandler.max_attempts ∧
    process_file
      { validate_ok := true, stat := Except.ok 10
        extract := fun n =>
          if n == 1 then Except.error ⟨"timeout", "E"⟩ else Except.ok [1]
        optimize := fun i => Except.ok i
        classify := fun _ => Except.ok ⟨"Medical Report", []⟩
        rename := fun n => Except.ok n
        verify := fun _ => true }
      "scan.pdf" "cid" "20250101" 2 =
      ⟨false, "scan.pdf", none, some "20250101_ERROR_scan.pdf", 2,
       some "PDF extraction failed: timeout", "cid"⟩ ∧
    (execute_with_retry defaultHandler
        (fun n =>
          if n == 1 then Except.error ⟨"timeout", "E"⟩
          else (Except.ok [1] : Except PyError (List Img)))
        (fun _ => 0) (fun _ => 0) false initBreaker).outcome =
      ExecOutcome.ok [1] ∧
    (execute_with_retry defaultHandler
        (fun n =>
          if n == 1 then Except.error ⟨"timeout", "E"⟩
          else (Except.ok [1] : Except PyError (List Img)))
        (fun _ => 0) (fun _ => 0) false initBreaker).invocations = 2 := by
  refine ⟨?_, ?_, ?_, ?_, ?_⟩ <;> decide

/-- Claim C9 as amended by the counterexample: classification and the
renames are invoked through execute_with_retry (classification additionally
guarded by the circuit breaker), so a run of TRANSIENT-classified failures
within the attempt budget is retried to success; page extraction and image
optimization are invoked directly by process_file — only their first
invocation's outcome matters — and are not retried. -/
theorem resilient_call_sites_amended (h : Handler) :
    (∀ (k : Nat) (seq : Nat → Except PyError Classification) (jit : Nat → ℚ)
        (times : Nat → ℤ) (c : Classification),
      1 ≤ k → k ≤ h.max_attempts → k < h.circuit_breaker_threshold →
      (∀ n, 1 ≤ n → n < k →
        ∃ e, seq n = Except.error e ∧
          classify_error e = ErrorType.TRANSIENT) →
      seq k = Except.ok c →
      (classify_document h seq jit times initBreaker).outcome =
        ExecOutcome.ok c ∧
      (classify_document h seq jit times initBreaker).invocations = k) ∧
    (∀ (k : Nat) (seq : Nat → Except PyError String) (jit : Nat → ℚ)
        (times : Nat → ℤ) (p : String) (b : Breaker),
      1 ≤ k → k ≤ h.max_attempts →
      (∀ n, 1 ≤ n → n < k →
        ∃ e, seq n = Except.error e ∧
          classify_error e = ErrorType.TRANSIENT) →
      seq k = Except.ok p →
      (rename_operation_retried h seq jit times b).outcome =
        ExecOutcome.ok p ∧
      (rename_operation_retried h seq jit times b).invocations = k) ∧
    (∀ (env : PipelineEnv) (e2 : Nat → Except PyError (List Img))
        (fp corr date_str : String) (tms : Nat),
      e2 1 = env.extract 1 →
      process_file { env with extract := e2 } fp corr date_str tms =
        process_file env fp corr date_str tms) := by
  refine ⟨?_, ?_, ?_⟩
  · intro k seq jit times c hk1 hkm hkth hfail hok
    have := execGo_transient_prefix h seq jit times true k c h.max_attempts 1
      initBreaker none (by omega) le_rfl hk1 hkm hfail hok
      (fun _ => rfl)
      (by
        intro _
        have : (initBreaker.failure_times).length = 0 := rfl
        omega)
    rw [classify_document, execute_with_retry]
    refine ⟨this.1, ?_⟩
    rw [this.2]
    omega
  · intro k seq jit times p b hk1 hkm hfail hok
    have := execGo_transient_prefix h seq jit times false k p h.max_attempts 1
      b none (by omega) le_rfl hk1 hkm hfail hok
      (fun hcb => absurd hcb (by simp))
      (fun hcb => absurd hcb (by simp))
    rw [rename_operation_retried, execute_with_retry]
    refine ⟨this.1, ?_⟩
    rw [this.2]
    omega
  · intro env e2 fp corr date_str tms he2
    simp only [process_file, he2, rename_with_error_tag]

/-- Concrete instantiation of resilient_call_sites_amended with the default
handler: a classification API call that is rate-limited once succeeds on the
second invocation; a rename that never fails is invoked once; and replacing
every extraction outcome after the first changes nothing about the pipeline
result. -/
theorem resilient_call_sites_amended_witness :
    (classify_document defaultHandler
        (fun n =>
          if n == 1 then Except.error ⟨"rate limit", "RateLimitError"⟩
          else Except.ok ⟨"Medical Report", []⟩)
        (fun _ => 0) (fun _ => 0) initBreaker).invocations = 2 ∧
    (rename_operation_retried defaultHandler (fun _ => Except.ok "t.pdf")
        (fun _ => 0) (fun _ => 0) initBreaker).invocations = 1 ∧
    process_file
      { validate_ok := true, stat := Except.ok 10
        extract := fun n =>
          if n == 1 then Except.ok [1] else Except.error ⟨"nope", "E"⟩
        optimize := fun i => Except.ok i
        classify := fun _ => Except.ok ⟨"Medical Report", []⟩
        rename := fun n => Except.ok n
        verify := fun _ => true }
      "scan.pdf" "cid" "20250101" 2 =
    process_file
      { validate_ok := true, stat := Except.ok 10
        extract := fun _ => Except.ok [1]
        optimize := fun i => Except.ok i
        classify := fun _ => Except.ok ⟨"Medical Report", []⟩
        rename := fun n => Except.ok n
        verify := fun _ => true }
      "scan.pdf" "cid" "20250101" 2 := by
  have h := resilient_call_sites_amended defaultHandler
  refine ⟨?_, ?_, ?_⟩
  · refine (h.1 2
      (fun n =>
        if n == 1 then Except.error ⟨"rate limit", "RateLimitError"⟩
        else Except.ok ⟨"Medical Report", []⟩)
      (fun _ => 0) (fun _ => 0) ⟨"Medical Report", []⟩
      (by decide) (by decide) (by decide) ?_ rfl).2
    intro n h1 h2
    have hn : n = 1 := by omega
    subst hn
    exact ⟨⟨"rate limit", "RateLimitError"⟩, rfl, by decide⟩
  · refine (h.2.1 1 (fun _ => Except.ok "t.pdf") (fun _ => 0) (fun _ => 0)
      "t.pdf" initBreaker (by decide) (by decide) ?_ rfl).2
    intro n h1 h2
    omega
  · exact h.2.2
      { validate_ok := true, stat := Except.ok 10
        extract := fun _ => Except.ok [1]
        optimize := fun i => Except.ok i
        classify := fun _ => Except.ok ⟨"Medical Report", []⟩
        rename := fun n => Except.ok n
        verify := fun _ => true }
      (fun n => if n == 1 then Except.ok [1] else Except.error ⟨"nope", "E"⟩)
      "scan.pdf" "cid" "20250101" 2 rfl

end ScannerWatcher
